import Mathlib

/-!
Shallow embedding of the progressive job-search acquisition and caching engine
of the resume-app repository: the `JobApiService` in `src/utils/jobApi.ts`
(response normalization, location filtering, progressive page loading) and the
`JobCache` in `src/utils/jobCache.ts` (result cache with 24h TTL and the
monthly request budget).

JavaScript conventions are modelled explicitly: an optional/possibly-empty
string field is `Option String` and its truthiness test is "present and
non-empty"; `x || fallback` on strings is `strOr`; numbers used by the code as
counts/timestamps are `Nat` (with `Int` where a subtraction can go negative,
as in the budget's `remaining`). Wall-clock time (`Date.now()`) is passed in
as an explicit `now : Nat` (milliseconds). The upstream HTTP endpoint is an
explicit parameter `upstream : Nat → PageResult` giving each page index's
outcome, and the persisted key-value store is explicit state. Presentation
fields that depend on the runtime's date parsing and locale (`postedDate`,
`postedDateISO`) are elided from the `Job` record: no claim observes them and
they do not influence any control flow.
-/

/-- JS truthiness of an optional string: present and non-empty. -/
def truthyStr (o : Option String) : Bool :=
  match o with
  | some s => s != ""
  | none => false

/-- JS truthiness of an optional number: present and non-zero. -/
def truthyNat (o : Option Nat) : Bool :=
  match o with
  | some n => n != 0
  | none => false

/-- JS `x || fallback` for an optional string `x`. -/
def strOr (o : Option String) (fallback : String) : String :=
  match o with
  | some s => if s = "" then fallback else s
  | none => fallback

/-- JS `x || ''`: the string value of an optional string, defaulting to empty. -/
def optStr (o : Option String) : String := o.getD ""

/-- Whether `pat` is an initial segment of `s` (char-list level). -/
def beginsWithCL : List Char → List Char → Bool
  | _, [] => true
  | [], _ :: _ => false
  | a :: s, b :: p => a == b && beginsWithCL s p

/-- Whether `pat` occurs contiguously in `s` (char-list level). -/
def occursCL : List Char → List Char → Bool
  | _, [] => true
  | [], _ :: _ => false
  | c :: rest, p :: ps => beginsWithCL (c :: rest) (p :: ps) || occursCL rest (p :: ps)

/-- JS `String.prototype.includes`: contiguous substring occurrence test. -/
def strIncludes (s pat : String) : Bool :=
  occursCL s.data pat.data

/-- JS `String.prototype.toLowerCase` on the ASCII strings the engine
handles: lowercase each character. -/
def sToLower (s : String) : String :=
  String.mk (s.data.map Char.toLower)

/-- ASCII whitespace, for `trim`. -/
def isWS (c : Char) : Bool :=
  c == ' ' || c == '\t' || c == '\n' || c == '\r'

/-- Drop leading whitespace from a char list. -/
def dropLeadingWS : List Char → List Char
  | [] => []
  | c :: rest => if isWS c then dropLeadingWS rest else c :: rest

/-- JS `String.prototype.trim`: strip whitespace from both ends. -/
def sTrim (s : String) : String :=
  String.mk ((dropLeadingWS (dropLeadingWS s.data).reverse).reverse)

/-- Split a char list at every occurrence of the separator character,
keeping empty segments, accumulator reversed per segment. -/
def splitCharCL (sep : Char) : List Char → List Char → List (List Char)
  | [], acc => [acc.reverse]
  | c :: rest, acc =>
    if c == sep then acc.reverse :: splitCharCL sep rest []
    else splitCharCL sep rest (c :: acc)

/-- JS `String.prototype.split` with a one-character separator (the only
form the engine uses: `split(' ')` and `split(',')`). -/
def splitChar (s : String) (sep : Char) : List String :=
  (splitCharCL sep s.data []).map String.mk

/-- Insert a thousands separator after every third digit of a reversed digit
list (helper for `toLocaleString`). -/
def groupRev : List Char → List Char
  | a :: b :: c :: d :: rest => a :: b :: c :: ',' :: groupRev (d :: rest)
  | l => l

/-- JS `Number.prototype.toLocaleString` on a natural number, under the
en-US default locale the app runs with: decimal digits with `,` grouping. -/
def toLocaleString (n : Nat) : String :=
  String.mk ((groupRev (toString n).data.reverse).reverse)

/-- `[...new Set(l)]`: deduplication keeping the first occurrence, in order. -/
def jsSetDedupAux (seen : List String) : List String → List String
  | [] => []
  | x :: xs =>
    if seen.contains x then jsSetDedupAux seen xs
    else x :: jsSetDedupAux (x :: seen) xs

/-- `[...new Set(l)]` as used for the location search-term list. -/
def jsSetDedup (l : List String) : List String := jsSetDedupAux [] l

/-- Raw job record of the upstream JSearch response (`RawJobData` in
`jobApi.ts`). Absent JSON fields are `none`. -/
structure RawJobData where
  job_id : Option String := none
  job_title : Option String := none
  employer_name : Option String := none
  job_city : Option String := none
  job_state : Option String := none
  job_country : Option String := none
  job_salary : Option String := none
  job_min_salary : Option Nat := none
  job_max_salary : Option Nat := none
  job_salary_currency : Option String := none
  job_salary_period : Option String := none
  job_description : Option String := none
  job_employment_type : Option String := none
  job_is_remote : Option Bool := none
  job_apply_link : Option String := none
  job_apply_is_direct : Option Bool := none
  employer_logo : Option String := none
  job_benefits : Option (List String) := none
deriving Repr, DecidableEq

/-- Normalized job entity (`Job` in `src/types/job.ts`), restricted to the
fields the engine computes from a raw record; the locale/date presentation
fields are elided (see the module comment). -/
structure Job where
  id : String
  title : String
  company : String
  location : String
  salary : String
  salary_min : Option Nat
  salary_max : Option Nat
  salary_currency : String
  matchRate : Nat
  description : String
  requirements : List String
  jobType : String
  experienceLevel : String
  remote : Bool
  url : Option String
deriving Repr, DecidableEq

/-- Search parameters (`JobSearchParams` in `src/types/job.ts`). -/
structure JobSearchParams where
  query : String
  location : Option String := none
  limit : Option Nat := none
  fromage : Option Nat := none
  jobType : Option String := none
  experienceLevel : Option String := none
  remote : Option Bool := none
  maxPages : Option Nat := none
deriving Repr, DecidableEq

/-- Search response (`JobSearchResponse` in `src/types/job.ts`). The optional
progressive-loading fields exist in the type but are never set by the engine. -/
structure JobSearchResponse where
  jobs : List Job
  total : Nat
  page : Nat
  hasMore : Bool
  isLoadingMore : Option Bool := none
  allJobsLoaded : Option Bool := none
deriving Repr, DecidableEq

/-- The body of one upstream HTTP response: `response.data?.data || []`
yields `some records` when a data array is present, `none` otherwise
(malformed response). -/
structure ApiResponse where
  data : Option (List RawJobData)
deriving Repr, DecidableEq

/-- `formatLocation` of `jobApi.ts`: city and state joined by `, `, falling
back to the country only when both are absent, else a placeholder. -/
def formatLocation (job : RawJobData) : String :=
  let parts : List String :=
    (if truthyStr job.job_city then [optStr job.job_city] else [])
      ++ (if truthyStr job.job_state then [optStr job.job_state] else [])
  let parts :=
    if truthyStr job.job_country && parts.length == 0
    then parts ++ [optStr job.job_country] else parts
  if parts.length > 0 then String.intercalate ", " parts
  else "Location not specified"

/-- `formatSalary` of `jobApi.ts`. -/
def formatSalary (job : RawJobData) : String :=
  if truthyStr job.job_salary then optStr job.job_salary
  else if truthyNat job.job_min_salary && truthyNat job.job_max_salary then
    let currency := strOr job.job_salary_currency "USD"
    let period := strOr job.job_salary_period "year"
    "$" ++ toLocaleString (job.job_min_salary.getD 0) ++ " - $"
      ++ toLocaleString (job.job_max_salary.getD 0) ++ " "
      ++ currency ++ "/" ++ period
  else if truthyNat job.job_min_salary then
    let currency := strOr job.job_salary_currency "USD"
    let period := strOr job.job_salary_period "year"
    "From $" ++ toLocaleString (job.job_min_salary.getD 0) ++ " "
      ++ currency ++ "/" ++ period
  else "Salary not specified"

/-- `calculateMatchRate` of `jobApi.ts`: 60-point base plus fixed bonuses,
capped at 95. -/
def calculateMatchRate (job : RawJobData) : Nat :=
  let score := 60
  let score := score + (if (optStr job.job_description).length > 100 then 10 else 0)
  let score := score + (if truthyStr job.job_apply_link then 5 else 0)
  let score := score + (if truthyStr job.job_salary || truthyNat job.job_min_salary then 10 else 0)
  let score := score + (if truthyStr job.employer_logo then 5 else 0)
  let score := score + (if (job.job_benefits.getD []).length > 0 then 10 else 0)
  min score 95

/-- The fixed technology-keyword vocabulary of `extractRequirements`. -/
def techSkills : List String :=
  ["react native", "typescript", "javascript", "react", "node.js", "python", "java",
   "swift", "kotlin", "flutter", "ios", "android", "mobile development",
   "api", "rest api", "graphql", "database", "sql", "nosql", "mongodb",
   "aws", "azure", "git", "agile", "scrum", "ci/cd"]

/-- `word.charAt(0).toUpperCase() + word.slice(1)`. -/
def capitalizeWord (w : String) : String :=
  match w.data with
  | [] => ""
  | c :: cs => String.mk (c.toUpper :: cs)

/-- Title-casing of a matched skill: capitalize each space-separated word. -/
def capitalizeSkill (s : String) : String :=
  String.intercalate " " ((splitChar s ' ').map capitalizeWord)

/-- `extractRequirements` of `jobApi.ts`: case-insensitive substring scan of
the description against `techSkills`, at most 5 in first-seen order, with two
generic fallback phrases when none match. -/
def extractRequirements (description : String) : List String :=
  let lowerDesc := sToLower description
  let foundSkills := (techSkills.filter (fun skill => strIncludes lowerDesc skill)).take 5
  let requirements := foundSkills.map capitalizeSkill
  if requirements.length = 0 then
    ["Relevant experience required", "Strong communication skills"]
  else requirements

/-- `determineExperienceLevel` of `jobApi.ts`: substring rules on the title. -/
def determineExperienceLevel (title : String) : String :=
  let lowerTitle := sToLower title
  if strIncludes lowerTitle "senior" || strIncludes lowerTitle "lead" then "senior"
  else if strIncludes lowerTitle "junior" || strIncludes lowerTitle "entry" then "entry"
  else if strIncludes lowerTitle "executive" || strIncludes lowerTitle "director" then "executive"
  else "mid"

/-- The state-name ⇄ abbreviation table of `getLocationVariations`, in the
source's insertion order (`Object.entries` iterates it in this order). -/
def stateMap : List (String × List String) :=
  [("california", ["ca", "calif"]),
   ("ca", ["california", "calif"]),
   ("new york", ["ny", "new york state"]),
   ("ny", ["new york", "new york state"]),
   ("texas", ["tx", "tex"]),
   ("tx", ["texas", "tex"]),
   ("florida", ["fl", "fla"]),
   ("fl", ["florida", "fla"]),
   ("illinois", ["il", "ill"]),
   ("il", ["illinois", "ill"]),
   ("pennsylvania", ["pa", "penn"]),
   ("pa", ["pennsylvania", "penn"]),
   ("ohio", ["oh"]),
   ("oh", ["ohio"]),
   ("michigan", ["mi", "mich"]),
   ("mi", ["michigan", "mich"]),
   ("georgia", ["ga"]),
   ("ga", ["georgia"]),
   ("north carolina", ["nc", "n.c."]),
   ("nc", ["north carolina", "n.c."]),
   ("virginia", ["va", "virg"]),
   ("va", ["virginia", "virg"]),
   ("washington", ["wa", "wash"]),
   ("wa", ["washington", "wash"]),
   ("massachusetts", ["ma", "mass"]),
   ("ma", ["massachusetts", "mass"]),
   ("arizona", ["az", "ariz"]),
   ("az", ["arizona", "ariz"]),
   ("colorado", ["co", "colo"]),
   ("co", ["colorado", "colo"]),
   ("nevada", ["nv", "nev"]),
   ("nv", ["nevada", "nev"])]

/-- `getLocationVariations` of `jobApi.ts`. -/
def getLocationVariations (location : String) : List String :=
  stateMap.foldl
    (fun variations kv =>
      if strIncludes location kv.1 then variations ++ kv.2 else variations)
    []

/-- `extractLocationSearchTerms` of `jobApi.ts`: the full lowercased trimmed
location, its comma-split parts, the state variations, deduplicated. -/
def extractLocationSearchTerms (location : String) : List String :=
  let cleanLocation := sTrim (sToLower location)
  let terms := [cleanLocation]
  let terms :=
    if strIncludes cleanLocation "," then
      terms ++ (splitChar cleanLocation ',').map sTrim
    else terms
  let terms := terms ++ getLocationVariations cleanLocation
  jsSetDedup terms

/-- The stop-word list of `isLocationMatch`. -/
def commonWords : List String :=
  ["the", "of", "and", "or", "in", "at", "to", "for", "with"]

/-- Drop stop words from a space-separated string (helper of
`isLocationMatch`). -/
def removeCommonWords (s : String) : String :=
  String.intercalate " " ((splitChar s ' ').filter (fun word => !(commonWords.contains word)))

/-- `isLocationMatch` of `jobApi.ts`: stop-word-stripped containment, only
for stripped terms of length at least 3. -/
def isLocationMatch (jobLocation searchTerm : String) : Bool :=
  let cleanJobLocation := removeCommonWords jobLocation
  let cleanSearchTerm := removeCommonWords searchTerm
  if cleanSearchTerm.length ≥ 3 then strIncludes cleanJobLocation cleanSearchTerm
  else false

/-- `filterJobsByLocation` of `jobApi.ts`. -/
def filterJobsByLocation (jobs : List Job) (requestedLocation : String) : List Job :=
  if sTrim requestedLocation = "" then jobs
  else
    let searchTerms := extractLocationSearchTerms requestedLocation
    jobs.filter (fun job =>
      let jobLocation := sToLower job.location
      searchTerms.any (fun term =>
        strIncludes jobLocation term || isLocationMatch jobLocation term))

/-- The per-record mapping inside `transformRapidApiResponse`: raw record at
position `index`, with `now` the `Date.now()` value used for synthesized ids. -/
def transformJob (now : Nat) (index : Nat) (job : RawJobData) : Job :=
  { id := strOr job.job_id ("api-" ++ toString now ++ "-" ++ toString index)
    title := strOr job.job_title "Position Title Not Available"
    company := strOr job.employer_name "Company Name Not Available"
    location := formatLocation job
    salary := formatSalary job
    salary_min := job.job_min_salary
    salary_max := job.job_max_salary
    salary_currency := strOr job.job_salary_currency "USD"
    matchRate := calculateMatchRate job
    description := strOr job.job_description "No description available"
    requirements := extractRequirements (optStr job.job_description)
    jobType := strOr job.job_employment_type "full-time"
    experienceLevel := determineExperienceLevel (optStr job.job_title)
    remote := job.job_is_remote.getD false
    url :=
      if truthyStr job.job_apply_link || job.job_apply_is_direct.getD false
      then job.job_apply_link else some "" }

/-- `data.data.map((job, index) => ...)`: the index-threading map. -/
def transformList (now : Nat) : Nat → List RawJobData → List Job
  | _, [] => []
  | i, r :: rs => transformJob now i r :: transformList now (i + 1) rs

/-- `transformRapidApiResponse` of `jobApi.ts`: malformed data gives an empty
response; otherwise map, drop records without a usable title, then apply the
client-side location filter when a location was requested. -/
def transformRapidApiResponse (now : Nat) (data : ApiResponse)
    (requestedLocation : Option String) : JobSearchResponse :=
  match data.data with
  | none => { jobs := [], total := 0, page := 1, hasMore := false }
  | some records =>
    let jobs := (transformList now 0 records).filter
      (fun job => job.title != "Position Title Not Available")
    let filteredJobs :=
      if truthyStr requestedLocation
      then filterJobsByLocation jobs (optStr requestedLocation)
      else jobs
    { jobs := filteredJobs
      total := filteredJobs.length
      page := 1
      hasMore := false }

/-! ## `src/utils/jobCache.ts`: result cache and request budget -/

/-- `CACHE_CONFIG.CACHE_DURATION`: 24 hours in milliseconds. -/
def CACHE_DURATION : Nat := 24 * 60 * 60 * 1000

/-- `CACHE_CONFIG.MAX_CACHE_SIZE`: at most 50 cached searches. -/
def MAX_CACHE_SIZE : Nat := 50

/-- `CACHE_CONFIG.CACHE_PREFIX`, the key namespace of cache entries. -/
def cacheKeyNamespace : String := "job_cache_"

/-- `CACHE_CONFIG.MAX_REQUESTS_PER_MONTH`: the monthly request ceiling. -/
def MAX_REQUESTS_PER_MONTH : Nat := 200

/-- A persisted cache entry (`CacheEntry` in `jobCache.ts`). -/
structure CacheEntry where
  data : List Job
  timestamp : Nat
  searchParams : JobSearchParams
  totalResults : Nat
deriving Repr, DecidableEq

/-- The cache-relevant slice of the key-value store, as an association list
in `getAllKeys` order. -/
def CacheStore := List (String × CacheEntry)
deriving instance Repr, DecidableEq for CacheStore

/-- `AsyncStorage.getItem` on the cache slice. -/
def lookupStore : CacheStore → String → Option CacheEntry
  | [], _ => none
  | (k, v) :: rest, key => if k = key then some v else lookupStore rest key

/-- `AsyncStorage.removeItem` on the cache slice. -/
def removeStore (store : CacheStore) (key : String) : CacheStore :=
  store.filter (fun kv => kv.1 != key)

/-- `AsyncStorage.setItem` on the cache slice: upsert. -/
def setStore (store : CacheStore) (key : String) (entry : CacheEntry) : CacheStore :=
  (key, entry) :: removeStore store key

/-- The character replacement of `generateCacheKey`'s
`replace(/[^a-z0-9]/g, '_')`. -/
def sanitizeChar (c : Char) : Char :=
  if ('a' ≤ c ∧ c ≤ 'z') ∨ ('0' ≤ c ∧ c ≤ '9') then c else '_'

/-- `generateCacheKey` of `jobCache.ts`: the derived cache identity of a
request, from (query, location, jobType, experienceLevel), case-normalized. -/
def generateCacheKey (params : JobSearchParams) : String :=
  let key := params.query ++ "_" ++ strOr params.location "any" ++ "_"
    ++ strOr params.jobType "any" ++ "_" ++ strOr params.experienceLevel "any"
  cacheKeyNamespace ++ String.mk ((sToLower key).data.map sanitizeChar)

/-- `getCachedJobs` of `jobCache.ts`: a fresh entry is returned unchanged, an
expired one is removed as a side effect of the lookup (lazy expiry). Returns
the result together with the store after the call. -/
def getCachedJobs (now : Nat) (store : CacheStore) (params : JobSearchParams) :
    Option (List Job) × CacheStore :=
  let cacheKey := generateCacheKey params
  match lookupStore store cacheKey with
  | none => (none, store)
  | some entry =>
    if now - entry.timestamp < CACHE_DURATION then (some entry.data, store)
    else (none, removeStore store cacheKey)

/-- Insertion into a timestamp-ascending list (helper for the sort in
`cleanupCache`). -/
def insertByTimestamp (kv : String × CacheEntry) :
    List (String × CacheEntry) → List (String × CacheEntry)
  | [] => [kv]
  | x :: xs =>
    if kv.2.timestamp ≤ x.2.timestamp then kv :: x :: xs
    else x :: insertByTimestamp kv xs

/-- `entries.sort((a, b) => a.timestamp - b.timestamp)`: sort cache entries
oldest-first. -/
def sortByTimestamp : List (String × CacheEntry) → List (String × CacheEntry)
  | [] => []
  | x :: xs => insertByTimestamp x (sortByTimestamp xs)

/-- `cleanupCache` of `jobCache.ts`: when more than `MAX_CACHE_SIZE` entries
exist, remove the oldest-by-timestamp entries down to the bound. -/
def cleanupCache (store : CacheStore) : CacheStore :=
  if store.length > MAX_CACHE_SIZE then
    let toRemove := (sortByTimestamp store).take (store.length - MAX_CACHE_SIZE)
    store.filter (fun kv => !(toRemove.map (·.1)).contains kv.1)
  else store

/-- `cacheJobs` of `jobCache.ts`: store the entry under the derived key with
a fresh timestamp, then clean up. -/
def cacheJobs (now : Nat) (store : CacheStore) (params : JobSearchParams)
    (jobs : List Job) (totalResults : Nat) : CacheStore :=
  let cacheKey := generateCacheKey params
  let entry : CacheEntry :=
    { data := jobs, timestamp := now, searchParams := params, totalResults := totalResults }
  cleanupCache (setStore store cacheKey entry)

/-- The persisted request tracker (`RequestTracker` in `jobCache.ts`):
`lastReset` is the `YYYY-MM` month key. -/
structure RequestTracker where
  count : Nat
  lastReset : String
deriving Repr, DecidableEq

/-- The value returned by `trackRequest`. `remainingRequests` is an `Int`
because the source computes it by plain subtraction before any check. -/
structure TrackResult where
  canMakeRequest : Bool
  remainingRequests : Int
deriving Repr, DecidableEq

/-- `trackRequest` of `jobCache.ts` (the spec's `tryConsume`), on a working
storage: reset the tracker when the stored month differs from the current
one, compute `remaining = ceiling - count` before any increment, allow iff it
is positive, and persist the incremented count only when allowed. Returns the
result and the tracker state after the call. -/
def trackRequest (currentMonth : String) (stored : Option RequestTracker) :
    TrackResult × Option RequestTracker :=
  let tracker := stored.getD { count := 0, lastReset := currentMonth }
  let tracker :=
    if tracker.lastReset ≠ currentMonth then
      { count := 0, lastReset := currentMonth }
    else tracker
  let remainingRequests : Int := (MAX_REQUESTS_PER_MONTH : Int) - tracker.count
  let canMakeRequest := remainingRequests > 0
  if canMakeRequest then
    ({ canMakeRequest := true, remainingRequests := remainingRequests },
      some { tracker with count := tracker.count + 1 })
  else
    ({ canMakeRequest := false, remainingRequests := remainingRequests }, stored)

/-- `trackRequest` including its catch-all: when the storage read or write
throws (`storageFails`), the error is swallowed and the hard-coded fallback
`{canMakeRequest: true, remainingRequests: 999}` is returned with no state
change. -/
def trackRequestFallible (storageFails : Bool) (currentMonth : String)
    (stored : Option RequestTracker) : TrackResult × Option RequestTracker :=
  if storageFails then
    ({ canMakeRequest := true, remainingRequests := 999 }, stored)
  else trackRequest currentMonth stored

/-- `n` consecutive `trackRequest` calls within the month `currentMonth`:
returns the number of allowed calls and the final tracker state. -/
def runBudget (currentMonth : String) : Nat → Option RequestTracker →
    Nat × Option RequestTracker
  | 0, st => (0, st)
  | n + 1, st =>
    let r := trackRequest currentMonth st
    let rest := runBudget currentMonth n r.2
    ((if r.1.canMakeRequest then 1 else 0) + rest.1, rest.2)

/-- `n` consecutive `trackRequest` calls against an always-failing storage. -/
def runBudgetFallible (currentMonth : String) : Nat → Option RequestTracker →
    Nat × Option RequestTracker
  | 0, st => (0, st)
  | n + 1, st =>
    let r := trackRequestFallible true currentMonth st
    let rest := runBudgetFallible currentMonth n r.2
    ((if r.1.canMakeRequest then 1 else 0) + rest.1, rest.2)

/-! ## `searchJobs` orchestration: progressive loading -/

/-- The outcome of one upstream page request: a record list (`data?.data ||
[]` of a 200 response, so a malformed body is `success []`), an
`ECONNABORTED`/timeout failure, or any other axios error. -/
inductive PageResult where
  | success (records : List RawJobData)
  | timeoutFailure
  | otherFailure
deriving Repr, DecidableEq

/-- The observable outcome of the background loop
(`loadRemainingPagesInBackground`): the job lists pushed through
`progressCallback` in order, the final accumulation buffer, and the page
indices actually requested upstream, in request order. -/
structure BgResult where
  emissions : List (List Job)
  allJobs : List RawJobData
  calls : List Nat
deriving Repr, DecidableEq

/-- `loadRemainingPagesInBackground` of `jobApi.ts`, as a function of fuel
`remaining = maxPages - currentPage + 1` (the number of loop iterations the
`for` bound still admits). One iteration at `currentPage`: an empty page
stops the loop; a non-empty page is appended to the buffer, the whole buffer
is re-transformed and emitted, and a short page (< 10 records) stops the
loop; a timeout waits longer and moves on to the next page index; any other
error stops the loop, keeping the buffer. -/
def loadRemainingPages (now : Nat) (upstream : Nat → PageResult)
    (requestedLocation : Option String) :
    Nat → Nat → List RawJobData → BgResult
  | 0, _, allJobs => { emissions := [], allJobs := allJobs, calls := [] }
  | remaining + 1, currentPage, allJobs =>
    match upstream currentPage with
    | .success pageData =>
      if pageData.length = 0 then
        { emissions := [], allJobs := allJobs, calls := [currentPage] }
      else
        let allJobs2 := allJobs ++ pageData
        let emitted :=
          (transformRapidApiResponse now { data := some allJobs2 } requestedLocation).jobs
        if pageData.length < 10 then
          { emissions := [emitted], allJobs := allJobs2, calls := [currentPage] }
        else
          let rest := loadRemainingPages now upstream requestedLocation
            remaining (currentPage + 1) allJobs2
          { emissions := emitted :: rest.emissions, allJobs := rest.allJobs
            calls := currentPage :: rest.calls }
    | .timeoutFailure =>
      let rest := loadRemainingPages now upstream requestedLocation
        remaining (currentPage + 1) allJobs
      { emissions := rest.emissions, allJobs := rest.allJobs
        calls := currentPage :: rest.calls }
    | .otherFailure =>
      { emissions := [], allJobs := allJobs, calls := [currentPage] }

/-- The empty `JobSearchResponse` the service returns on budget refusal,
missing API key, or any thrown error. -/
def emptyResponse : JobSearchResponse :=
  { jobs := [], total := 0, page := 1, hasMore := false }

/-- The full observable outcome of one `searchJobs` call: the synchronous
response, the progress emissions of the background task, the cache store and
budget tracker after the search completes (background task included), and
the upstream page indices requested. -/
structure SearchOutcome where
  response : JobSearchResponse
  emissions : List (List Job)
  store : CacheStore
  tracker : Option RequestTracker
  upstreamCalls : List Nat
deriving Repr, DecidableEq

/-- `searchJobs` of `jobApi.ts` together with
`searchRapidApiJobsProgressive`: cache check, budget check, API-key check,
first page with its transform, the spawned background loop, and the final
cache write of `response.jobs` (the transformed first batch) when non-empty.
A first-page failure is rethrown and caught by `searchJobs`' catch-all,
which returns the empty response. `hasApiKey` is the truthiness of the
configured RapidAPI key. -/
def searchJobs (now : Nat) (currentMonth : String) (hasApiKey : Bool)
    (upstream : Nat → PageResult) (params : JobSearchParams)
    (store : CacheStore) (tracker : Option RequestTracker) : SearchOutcome :=
  let got := getCachedJobs now store params
  match got.1 with
  | some cachedJobs =>
    { response := { jobs := cachedJobs, total := cachedJobs.length, page := 1, hasMore := false }
      emissions := [], store := got.2, tracker := tracker, upstreamCalls := [] }
  | none =>
    let tracked := trackRequest currentMonth tracker
    if !tracked.1.canMakeRequest then
      { response := emptyResponse, emissions := [], store := got.2
        tracker := tracked.2, upstreamCalls := [] }
    else if !hasApiKey then
      { response := emptyResponse, emissions := [], store := got.2
        tracker := tracked.2, upstreamCalls := [] }
    else
      match upstream 1 with
      | .success firstPageData =>
        let maxPages := if truthyNat params.maxPages then params.maxPages.getD 0 else 10
        let firstBatch :=
          transformRapidApiResponse now { data := some firstPageData } params.location
        let background :=
          if firstPageData.length ≥ 10 && maxPages > 1 then
            loadRemainingPages now upstream params.location (maxPages - 1) 2 firstPageData
          else { emissions := [], allJobs := firstPageData, calls := [] }
        let response := { firstBatch with hasMore := firstPageData.length ≥ 10 && maxPages > 1 }
        let store2 :=
          if response.jobs.length > 0 then
            cacheJobs now got.2 params response.jobs response.total
          else got.2
        { response := response, emissions := background.emissions, store := store2
          tracker := tracked.2, upstreamCalls := 1 :: background.calls }
      | _ =>
        { response := emptyResponse, emissions := [], store := got.2
          tracker := tracked.2, upstreamCalls := [1] }

/-! ## Derived predicates used to state properties of the normalizer -/

/-- The title-validity filter applied inside `transformRapidApiResponse`. -/
def titleKept (job : Job) : Bool :=
  job.title != "Position Title Not Available"

/-- The effective per-job location predicate of `transformRapidApiResponse`:
`true` when no location filtering is triggered (absent/empty/blank requested
location), otherwise the search-term test of `filterJobsByLocation` on the
job's location string. -/
def keepLocation (requestedLocation : Option String) (jobLocation : String) : Bool :=
  if truthyStr requestedLocation then
    let loc := optStr requestedLocation
    if sTrim loc = "" then true
    else
      (extractLocationSearchTerms loc).any (fun term =>
        strIncludes (sToLower jobLocation) term || isLocationMatch (sToLower jobLocation) term)
  else true

/-- Whether a raw record survives normalization and location filtering: its
transformed job keeps a usable title and passes the location predicate. Both
tests depend only on the record, not on its index or on `Date.now()`. -/
def survives (requestedLocation : Option String) (r : RawJobData) : Bool :=
  titleKept (transformJob 0 0 r) && keepLocation requestedLocation (formatLocation r)

/-! ## Concrete scenario data for witnesses and counterexamples -/

/-- A raw record with a usable title and id `i`, an undetermined employer. -/
def goodR (i : Nat) : RawJobData :=
  { job_id := some (toString i), job_title := some "Engineer" }

/-- A raw record with no usable title (dropped by normalization). -/
def titlelessR : RawJobData := {}

/-- A full first page: ten valid records. -/
def page1C1 : List RawJobData := (List.range 10).map goodR

/-- A short second page: five valid records. -/
def page2C1 : List RawJobData := (List.range 5).map (fun i => goodR (10 + i))

/-- Upstream for the caching scenario: a full page 1, a short page 2. -/
def upstreamC1 : Nat → PageResult
  | 1 => .success page1C1
  | 2 => .success page2C1
  | _ => .success []

/-- Request of the caching scenario: two pages at most. -/
def paramsC1 : JobSearchParams := { query := "dev", maxPages := some 2 }

/-- Upstream for the timeout scenario: page 2 times out, page 3 is full. -/
def upstreamC2 : Nat → PageResult
  | 2 => .timeoutFailure
  | 3 => .success (List.replicate 10 (goodR 3))
  | _ => .success []

/-- Upstream with a timeout at page 2 and a non-timeout failure at page 7. -/
def upstreamC2w : Nat → PageResult
  | 2 => .timeoutFailure
  | 7 => .otherFailure
  | _ => .success []

/-- Upstream for the duplicate-emission scenario: page 2 is full and valid,
page 3 is full but consists only of records without a usable title. -/
def upstreamC7 : Nat → PageResult
  | 2 => .success (List.replicate 10 (goodR 2))
  | 3 => .success (List.replicate 10 titlelessR)
  | _ => .success []

/-- An accumulation buffer holding one full valid first page. -/
def accFull : List RawJobData := List.replicate 10 (goodR 1)

/-- Request used in the budget-refusal scenario. -/
def paramsC3 : JobSearchParams := { query := "software engineer" }

/-- Request with a query that is empty after trimming. -/
def paramsC4 : JobSearchParams := { query := "  " }

/-- Parameters of the cache-TTL witness. -/
def paramsC8 : JobSearchParams := { query := "dev", location := some "Austin, TX" }

/-- A concrete normalized job for the cache-TTL witness. -/
def jobC8 : Job := transformJob 0 0 (goodR 0)

/-- A cache entry stored at time 100. -/
def entryC8 : CacheEntry :=
  { data := [jobC8], timestamp := 100, searchParams := paramsC8, totalResults := 1 }

/-- A store holding exactly the witness entry under its derived key. -/
def storeC8 : CacheStore := [(generateCacheKey paramsC8, entryC8)]

/-- A raw record whose company cannot be determined but whose title can. -/
def recC9 : RawJobData := { job_title := some "Engineer" }

/-! ## Basic lemmas -/

theorem strOr_ne_empty (o : Option String) (fb : String) (h : fb ≠ "") :
    strOr o fb ≠ "" := by
  cases o with
  | none => simpa [strOr] using h
  | some s =>
    by_cases hs : s = "" <;> simp [strOr, hs] <;> exact h

theorem strOr_ne_fallback_ne_empty (o : Option String) (fb : String)
    (h : strOr o fb ≠ fb) : strOr o fb ≠ "" := by
  cases o with
  | none => simp [strOr] at h
  | some s =>
    by_cases hs : s = "" <;> simp [strOr, hs] at h ⊢ <;> simp_all

theorem strOr_of_not_truthy (o : Option String) (fb : String)
    (h : truthyStr o = false) : strOr o fb = fb := by
  cases o with
  | none => rfl
  | some s => simp [truthyStr] at h; simp [strOr, h]

/-! ## Budget lemmas (`trackRequest`) -/

theorem trackRequest_same_month_lt (month : String) (c : Nat) (h : c < 200) :
    trackRequest month (some ⟨c, month⟩)
      = (⟨true, (MAX_REQUESTS_PER_MONTH : Int) - c⟩, some ⟨c + 1, month⟩) := by
  have h2 : (MAX_REQUESTS_PER_MONTH : Int) - c > 0 := by
    simp [MAX_REQUESTS_PER_MONTH]; omega
  simp [trackRequest, h2]

theorem trackRequest_same_month_ge (month : String) (c : Nat) (h : 200 ≤ c) :
    trackRequest month (some ⟨c, month⟩)
      = (⟨false, (MAX_REQUESTS_PER_MONTH : Int) - c⟩, some ⟨c, month⟩) := by
  have h2 : ¬ ((MAX_REQUESTS_PER_MONTH : Int) - c > 0) := by
    simp [MAX_REQUESTS_PER_MONTH]; omega
  simp [trackRequest, h2]

theorem trackRequest_new_month (month m0 : String) (c : Nat) (h : m0 ≠ month) :
    trackRequest month (some ⟨c, m0⟩)
      = (⟨true, (MAX_REQUESTS_PER_MONTH : Int)⟩, some ⟨1, month⟩) := by
  simp [trackRequest, h, MAX_REQUESTS_PER_MONTH]

theorem trackRequest_no_tracker (month : String) :
    trackRequest month none
      = (⟨true, (MAX_REQUESTS_PER_MONTH : Int)⟩, some ⟨1, month⟩) := by
  simp [trackRequest, MAX_REQUESTS_PER_MONTH]

theorem runBudget_loop (month : String) :
    ∀ (n c : Nat), c ≤ 200 →
      runBudget month n (some ⟨c, month⟩)
        = (min n (200 - c), some ⟨min (c + n) 200, month⟩) := by
  intro n
  induction n with
  | zero => intro c hc; simp [runBudget]; omega
  | succ n ih =>
    intro c hc
    by_cases h : c < 200
    · simp only [runBudget, trackRequest_same_month_lt month c h, ih (c + 1) (by omega)]
      simp [Prod.mk.injEq, Option.some.injEq, RequestTracker.mk.injEq]
      all_goals omega
    · have hc200 : c = 200 := by omega
      subst hc200
      simp only [runBudget, trackRequest_same_month_ge month 200 (by omega), ih 200 (by omega)]
      simp [Prod.mk.injEq, Option.some.injEq, RequestTracker.mk.injEq]
      all_goals omega

theorem runBudget_from_none (month : String) (n : Nat) :
    (runBudget month n none).1 = min n 200 ∧
    (0 < n → (runBudget month n none).2 = some ⟨min n 200, month⟩) := by
  cases n with
  | zero => simp [runBudget]
  | succ n =>
    simp only [runBudget, trackRequest_no_tracker month, runBudget_loop month n 1 (by omega)]
    simp [Option.some.injEq, RequestTracker.mk.injEq]
    all_goals omega

/-! ## Cache-store lemmas -/

theorem lookupStore_removeStore (store : CacheStore) (key : String) :
    lookupStore (removeStore store key) key = none := by
  induction store with
  | nil => rfl
  | cons kv rest ih =>
    by_cases h : kv.1 = key
    · simpa [removeStore, List.filter_cons, h] using ih
    · simpa [removeStore, List.filter_cons, h, lookupStore] using ih

theorem removeStore_length_le (store : CacheStore) (key : String) :
    (removeStore store key).length ≤ store.length :=
  List.length_filter_le _ store

theorem lookupStore_setStore (store : CacheStore) (key : String) (entry : CacheEntry) :
    lookupStore (setStore store key entry) key = some entry := by
  simp [setStore, lookupStore]

theorem cleanupCache_small (store : CacheStore) (h : store.length ≤ MAX_CACHE_SIZE) :
    cleanupCache store = store := by
  simp only [cleanupCache]
  rw [if_neg (by omega)]

theorem getCachedJobs_miss (now : Nat) (store : CacheStore) (params : JobSearchParams)
    (h : lookupStore store (generateCacheKey params) = none) :
    getCachedJobs now store params = (none, store) := by
  simp [getCachedJobs, h]

/-! ## Normalizer lemmas -/

theorem filter_filter_bool (p q : Job → Bool) (l : List Job) :
    (l.filter p).filter q = l.filter (fun j => p j && q j) := by
  induction l with
  | nil => rfl
  | cons a l ih =>
    by_cases hp : p a <;> by_cases hq : q a <;>
      simp [List.filter_cons, hp, hq, ih]

theorem filter_and_true (p : Job → Bool) (l : List Job) :
    l.filter (fun j => p j && true) = l.filter p := by
  induction l with
  | nil => rfl
  | cons a l ih => by_cases hp : p a <;> simp [List.filter_cons, hp, ih]

theorem transform_jobs_filter (now : Nat) (records : List RawJobData) (reqLoc : Option String) :
    (transformRapidApiResponse now { data := some records } reqLoc).jobs
      = (transformList now 0 records).filter
          (fun j => titleKept j && keepLocation reqLoc j.location) := by
  by_cases h1 : truthyStr reqLoc
  · by_cases h2 : sTrim (optStr reqLoc) = ""
    · simp only [transformRapidApiResponse, h1, if_true]
      rw [filterJobsByLocation, if_pos h2]
      simp [keepLocation, h1, h2, titleKept, filter_and_true]
    · simp only [transformRapidApiResponse, h1, if_true]
      rw [filterJobsByLocation, if_neg h2]
      rw [filter_filter_bool]
      simp [keepLocation, h1, h2, titleKept]
  · have h1f : truthyStr reqLoc = false := by simpa using h1
    simp only [transformRapidApiResponse, h1f, Bool.false_eq_true, if_false]
    simp [keepLocation, h1f, titleKept, filter_and_true]

theorem transformList_survives_count (now : Nat) (reqLoc : Option String) :
    ∀ (records : List RawJobData) (i : Nat),
      ((transformList now i records).filter
          (fun j => titleKept j && keepLocation reqLoc j.location)).length
        = records.countP (survives reqLoc) := by
  intro records
  induction records with
  | nil => intro i; rfl
  | cons r rs ih =>
    intro i
    have hpt : (titleKept (transformJob now i r)
        && keepLocation reqLoc (transformJob now i r).location) = survives reqLoc r := rfl
    by_cases hs : survives reqLoc r = true
    · simp [transformList, List.filter_cons, hpt, hs, List.countP_cons, ih (i + 1)]
    · have hs' : survives reqLoc r = false := by simpa using hs
      simp [transformList, List.filter_cons, hpt, hs', List.countP_cons, ih (i + 1)]

theorem transform_jobs_length (now : Nat) (records : List RawJobData) (reqLoc : Option String) :
    (transformRapidApiResponse now { data := some records } reqLoc).jobs.length
      = records.countP (survives reqLoc) := by
  rw [transform_jobs_filter, transformList_survives_count]

theorem transform_len_mono (now : Nat) (acc page : List RawJobData) (reqLoc : Option String) :
    (transformRapidApiResponse now { data := some acc } reqLoc).jobs.length
      ≤ (transformRapidApiResponse now { data := some (acc ++ page) } reqLoc).jobs.length := by
  rw [transform_jobs_length, transform_jobs_length, List.countP_append]
  exact Nat.le_add_right _ _

theorem mem_transformList (now : Nat) :
    ∀ (records : List RawJobData) (i : Nat) (j : Job),
      j ∈ transformList now i records → ∃ k r, r ∈ records ∧ j = transformJob now k r := by
  intro records
  induction records with
  | nil => intro i j h; simp [transformList] at h
  | cons r rs ih =>
    intro i j h
    rw [transformList, List.mem_cons] at h
    rcases h with h | h
    · exact ⟨i, r, List.mem_cons_self r rs, h⟩
    · obtain ⟨k, r', hmem, hj⟩ := ih (i + 1) j h
      exact ⟨k, r', List.mem_cons_of_mem r hmem, hj⟩

theorem mem_transform_jobs (now : Nat) (records : List RawJobData) (reqLoc : Option String)
    (j : Job) (hj : j ∈ (transformRapidApiResponse now { data := some records } reqLoc).jobs) :
    (∃ k r, r ∈ records ∧ j = transformJob now k r) ∧ titleKept j = true := by
  rw [transform_jobs_filter] at hj
  have hj2 := List.mem_filter.mp hj
  refine ⟨mem_transformList now records 0 j hj2.1, ?_⟩
  have := hj2.2
  simp only [Bool.and_eq_true] at this
  exact this.1

/-! ## Background-loop lemmas -/

theorem emissions_mono_aux (now : Nat) (upstream : Nat → PageResult) (reqLoc : Option String) :
    ∀ (fuel page : Nat) (acc : List RawJobData),
      List.Chain' (fun a b => a ≤ b)
        ((transformRapidApiResponse now { data := some acc } reqLoc).jobs.length
          :: ((loadRemainingPages now upstream reqLoc fuel page acc).emissions.map
                List.length)) := by
  intro fuel
  induction fuel with
  | zero => intro page acc; simp [loadRemainingPages]
  | succ fuel ih =>
    intro page acc
    cases hup : upstream page with
    | success pageData =>
      by_cases h0 : pageData.length = 0
      · simp [loadRemainingPages, hup, h0]
      · by_cases hlt : pageData.length < 10
        · simp only [loadRemainingPages, hup, h0, if_false, hlt, if_true]
          simp only [List.map_cons, List.map_nil]
          rw [List.chain'_cons]
          exact ⟨transform_len_mono now acc pageData reqLoc, List.chain'_singleton _⟩
        · have hrec := ih (page + 1) (acc ++ pageData)
          simp only [loadRemainingPages, hup, h0, if_false, hlt, if_true]
          simp only [List.map_cons]
          rw [List.chain'_cons]
          exact ⟨transform_len_mono now acc pageData reqLoc, hrec⟩
    | timeoutFailure =>
      simp only [loadRemainingPages, hup]
      exact ih (page + 1) acc
    | otherFailure => simp [loadRemainingPages, hup]

/-! ## Claim theorems -/

/-- C5 counterexample: in a fresh month with usedCount 0, an allowed call
increments the stored count to 1 but returns `remaining = 200`, the ceiling
minus the PRE-increment count — not `ceiling - 1` as the claim (ceiling minus
the post-increment usedCount) requires. -/
theorem tryConsume_remaining_cex :
    (trackRequest "2025-01" (some ⟨0, "2025-01"⟩)).1.canMakeRequest = true ∧
    (trackRequest "2025-01" (some ⟨0, "2025-01"⟩)).2 = some ⟨1, "2025-01"⟩ ∧
    (trackRequest "2025-01" (some ⟨0, "2025-01"⟩)).1.remainingRequests
      ≠ (MAX_REQUESTS_PER_MONTH : Int) - 1 := by
  decide

/-- C5 (amended): `trackRequest` resets the count when the stored month
differs from the current one; when it allows, it increments usedCount and
returns remaining = ceiling − the pre-increment usedCount; when it refuses,
it returns remaining = ceiling − usedCount (0 at the refusal boundary
usedCount = ceiling, the only refusing state reachable by `trackRequest`
alone) and leaves the stored tracker unchanged. -/
theorem tryConsume_behavior (month m0 : String) (c : Nat) :
    (m0 ≠ month →
      trackRequest month (some ⟨c, m0⟩)
        = ({ canMakeRequest := true, remainingRequests := (MAX_REQUESTS_PER_MONTH : Int) },
           some ⟨1, month⟩)) ∧
    (c < MAX_REQUESTS_PER_MONTH →
      trackRequest month (some ⟨c, month⟩)
        = ({ canMakeRequest := true,
             remainingRequests := (MAX_REQUESTS_PER_MONTH : Int) - (c : Int) },
           some ⟨c + 1, month⟩)) ∧
    (MAX_REQUESTS_PER_MONTH ≤ c →
      trackRequest month (some ⟨c, month⟩)
        = ({ canMakeRequest := false,
             remainingRequests := (MAX_REQUESTS_PER_MONTH : Int) - (c : Int) },
           some ⟨c, month⟩)) ∧
    (c = MAX_REQUESTS_PER_MONTH →
      (trackRequest month (some ⟨c, month⟩)).1.remainingRequests = 0) ∧
    trackRequest month none
      = ({ canMakeRequest := true, remainingRequests := (MAX_REQUESTS_PER_MONTH : Int) },
         some ⟨1, month⟩) := by
  refine ⟨fun h => trackRequest_new_month month m0 c h,
    fun h => trackRequest_same_month_lt month c (by simpa [MAX_REQUESTS_PER_MONTH] using h),
    fun h => trackRequest_same_month_ge month c (by simpa [MAX_REQUESTS_PER_MONTH] using h),
    fun h => ?_, trackRequest_no_tracker month⟩
  subst h
  rw [trackRequest_same_month_ge month MAX_REQUESTS_PER_MONTH (by simp [MAX_REQUESTS_PER_MONTH])]
  simp [MAX_REQUESTS_PER_MONTH]

/-- C5 witness: the behavior theorem instantiated at concrete months and
counts 3 (stale month), 5 (allowed), and 200 (refused). -/
theorem tryConsume_behavior_witness :
    trackRequest "2025-02" (some ⟨3, "2025-01"⟩)
      = ({ canMakeRequest := true, remainingRequests := (MAX_REQUESTS_PER_MONTH : Int) },
         some ⟨1, "2025-02"⟩) ∧
    trackRequest "2025-02" (some ⟨5, "2025-02"⟩)
      = ({ canMakeRequest := true,
           remainingRequests := (MAX_REQUESTS_PER_MONTH : Int) - ((5 : Nat) : Int) },
         some ⟨5 + 1, "2025-02"⟩) ∧
    trackRequest "2025-02" (some ⟨200, "2025-02"⟩)
      = ({ canMakeRequest := false,
           remainingRequests := (MAX_REQUESTS_PER_MONTH : Int) - ((200 : Nat) : Int) },
         some ⟨200, "2025-02"⟩) ∧
    (trackRequest "2025-02" (some ⟨200, "2025-02"⟩)).1.remainingRequests = 0 :=
  ⟨(tryConsume_behavior "2025-02" "2025-01" 3).1 (by decide),
   (tryConsume_behavior "2025-02" "2025-01" 5).2.1 (by decide),
   (tryConsume_behavior "2025-02" "2025-01" 200).2.2.1 (by decide),
   (tryConsume_behavior "2025-02" "2025-01" 200).2.2.2.1 (by decide)⟩

/-- C6: within one month, n consecutive `trackRequest` calls starting from no
stored tracker succeed exactly min(n, 200) times; after 200 calls the next
call in the same month is refused; the first call after a month change is
evaluated against a count reset to 0 (it is allowed with the full ceiling
remaining and stores count 1). -/
theorem budget_monotonicity (month m1 m2 : String) (n c : Nat) (hm : m1 ≠ m2) :
    (runBudget month n none).1 = min n 200 ∧
    (trackRequest month (runBudget month 200 none).2).1.canMakeRequest = false ∧
    trackRequest m2 (some ⟨c, m1⟩)
      = ({ canMakeRequest := true, remainingRequests := (MAX_REQUESTS_PER_MONTH : Int) },
         some ⟨1, m2⟩) := by
  refine ⟨(runBudget_from_none month n).1, ?_, trackRequest_new_month m2 m1 c hm⟩
  have h2 := (runBudget_from_none month 200).2 (by omega)
  rw [h2]
  have hmin : min 200 200 = 200 := by omega
  rw [hmin, trackRequest_same_month_ge month 200 (by omega)]

/-- C6 witness: the monotonicity theorem at month 2025-03, n = 7, and a
month change 2025-03 → 2025-04 with stored count 42. -/
theorem budget_monotonicity_witness :
    (runBudget "2025-03" 7 none).1 = min 7 200 ∧
    (trackRequest "2025-03" (runBudget "2025-03" 200 none).2).1.canMakeRequest = false ∧
    trackRequest "2025-04" (some ⟨42, "2025-03"⟩)
      = ({ canMakeRequest := true, remainingRequests := (MAX_REQUESTS_PER_MONTH : Int) },
         some ⟨1, "2025-04"⟩) :=
  budget_monotonicity "2025-03" "2025-03" "2025-04" 7 42 (by decide)

/-- C10: when the persisted tracker's storage fails, `trackRequest` swallows
the error and returns allowed with remaining 999, advancing nothing; hence
under an always-failing storage every one of n consecutive calls is allowed,
for every n — the monthly ceiling is fail-open and unenforced. -/
theorem budget_fail_open (month : String) (st : Option RequestTracker) (n : Nat) :
    trackRequestFallible true month st
      = ({ canMakeRequest := true, remainingRequests := 999 }, st) ∧
    runBudgetFallible month n st = (n, st) := by
  constructor
  · rfl
  · induction n with
    | zero => rfl
    | succ n ih => simp [runBudgetFallible, trackRequestFallible, ih] <;> omega

/-- C8: a cache entry reachable under a request's derived key is returned
unchanged by any read strictly inside the 24h window after its timestamp,
and any read at or past the window returns nothing and deletes the entry
from the store as a side effect. -/
theorem cache_ttl (t : Nat) (store : CacheStore) (params : JobSearchParams)
    (entry : CacheEntry)
    (hlook : lookupStore store (generateCacheKey params) = some entry) :
    (t - entry.timestamp < CACHE_DURATION →
      getCachedJobs t store params = (some entry.data, store)) ∧
    (CACHE_DURATION ≤ t - entry.timestamp →
      (getCachedJobs t store params).1 = none ∧
      lookupStore (getCachedJobs t store params).2 (generateCacheKey params) = none) := by
  refine ⟨fun h => ?_, fun h => ?_⟩
  · simp [getCachedJobs, hlook, h]
  · have hn : ¬ (t - entry.timestamp < CACHE_DURATION) := by omega
    exact ⟨by simp [getCachedJobs, hlook, hn],
      by simp [getCachedJobs, hlook, hn, lookupStore_removeStore]⟩

/-- C8 witness: a store holding one entry stored at time 100, read at time
100 (inside the window) and in general. -/
theorem cache_ttl_witness :
    lookupStore storeC8 (generateCacheKey paramsC8) = some entryC8 ∧
    ((100 - entryC8.timestamp < CACHE_DURATION →
       getCachedJobs 100 storeC8 paramsC8 = (some entryC8.data, storeC8)) ∧
     (CACHE_DURATION ≤ 100 - entryC8.timestamp →
       (getCachedJobs 100 storeC8 paramsC8).1 = none ∧
       lookupStore (getCachedJobs 100 storeC8 paramsC8).2 (generateCacheKey paramsC8) = none)) :=
  ⟨by decide, cache_ttl 100 storeC8 paramsC8 entryC8 (by decide)⟩

/-- C7 counterexample: with a full valid page 2 and a full page 3 whose
records all lack a usable title, the background loop emits two consecutive
progress updates of identical size 20 — the emitted accumulated sizes are
not strictly increasing and a duplicate emission occurs. -/
theorem progress_duplicate_emission_cex :
    (loadRemainingPages 0 upstreamC7 none 2 2 accFull).emissions.map List.length
      = [20, 20] ∧
    ¬ List.Chain' (fun a b => a < b)
        ((loadRemainingPages 0 upstreamC7 none 2 2 accFull).emissions.map List.length) := by
  have h : (loadRemainingPages 0 upstreamC7 none 2 2 accFull).emissions.map List.length
      = [20, 20] := by decide
  refine ⟨h, ?_⟩
  rw [h]
  intro hc
  rw [List.chain'_cons] at hc
  exact Nat.lt_irrefl 20 hc.1

/-- C7 (amended): for every upstream page sequence, the sizes of the job
sets emitted by the background loop are monotonically non-decreasing, each at
least the size of the transformed accumulation the loop started from;
consecutive emissions of equal size (duplicates) are possible when a page
contributes no surviving job, so the order is not strict. -/
theorem progress_lengths_monotone (now : Nat) (upstream : Nat → PageResult)
    (reqLoc : Option String) (fuel page : Nat) (acc : List RawJobData) :
    List.Chain' (fun a b => a ≤ b)
      ((transformRapidApiResponse now { data := some acc } reqLoc).jobs.length
        :: ((loadRemainingPages now upstream reqLoc fuel page acc).emissions.map
              List.length)) :=
  emissions_mono_aux now upstream reqLoc fuel page acc

/-- C2 counterexample: with page 2 timing out and page 3 full, the loop
requests pages [2, 3] — page 2 is requested exactly once and never retried;
after the timeout the loop moved on to page index 3 and emitted its results. -/
theorem timeout_skips_page_cex :
    (loadRemainingPages 0 upstreamC2 none 2 2 accFull).calls = [2, 3] ∧
    (loadRemainingPages 0 upstreamC2 none 2 2 accFull).calls.count 2 = 1 ∧
    (loadRemainingPages 0 upstreamC2 none 2 2 accFull).emissions.map List.length
      = [20] := by
  decide

/-- C2 (amended): a page-level timeout makes the background loop wait longer
and move on to the NEXT page index with the accumulation intact — the
timed-out page index is skipped, not retried — while a non-timeout error
stops the loop, preserving everything already accumulated. -/
theorem background_failure_behavior (now : Nat) (upstream : Nat → PageResult)
    (reqLoc : Option String) (fuel page : Nat) (acc : List RawJobData) :
    (upstream page = .timeoutFailure →
      loadRemainingPages now upstream reqLoc (fuel + 1) page acc
        = { emissions := (loadRemainingPages now upstream reqLoc fuel (page + 1) acc).emissions
            allJobs := (loadRemainingPages now upstream reqLoc fuel (page + 1) acc).allJobs
            calls := page :: (loadRemainingPages now upstream reqLoc fuel (page + 1) acc).calls }) ∧
    (upstream page = .otherFailure →
      loadRemainingPages now upstream reqLoc (fuel + 1) page acc
        = { emissions := [], allJobs := acc, calls := [page] }) := by
  constructor <;> intro h <;> simp [loadRemainingPages, h]

/-- C2 witness: the behavior theorem at an upstream that times out on page 2
and hard-fails on page 7. -/
theorem background_failure_behavior_witness :
    upstreamC2w 2 = .timeoutFailure ∧ upstreamC2w 7 = .otherFailure ∧
    loadRemainingPages 0 upstreamC2w none 4 2 []
      = { emissions := (loadRemainingPages 0 upstreamC2w none 3 3 []).emissions
          allJobs := (loadRemainingPages 0 upstreamC2w none 3 3 []).allJobs
          calls := 2 :: (loadRemainingPages 0 upstreamC2w none 3 3 []).calls } ∧
    loadRemainingPages 0 upstreamC2w none 1 7 []
      = { emissions := [], allJobs := [], calls := [7] } :=
  ⟨by decide, by decide,
   (background_failure_behavior 0 upstreamC2w none 3 2 []).1 (by decide),
   (background_failure_behavior 0 upstreamC2w none 0 7 []).2 (by decide)⟩

/-- C9 counterexample: a raw record with a usable title but an undetermined
company is NOT dropped — it is returned with the placeholder company name. -/
theorem normalizer_company_fallback_cex :
    truthyStr recC9.employer_name = false ∧
    (transformRapidApiResponse 0 { data := some [recC9] } none).jobs.map Job.company
      = ["Company Name Not Available"] ∧
    (transformRapidApiResponse 0 { data := some [recC9] } none).jobs.length = 1 := by
  decide

/-- C9 (amended): every job produced by normalization has a non-empty title
and a non-empty company; every record whose title cannot be determined is
dropped (the output size counts exactly the surviving records), but a record
with only an undetermined company is kept with a placeholder company. -/
theorem normalizer_title_company (now : Nat) (records : List RawJobData)
    (reqLoc : Option String) (j : Job) (r : RawJobData)
    (hj : j ∈ (transformRapidApiResponse now { data := some records } reqLoc).jobs) :
    (j.title ≠ "" ∧ j.company ≠ "") ∧
    (transformRapidApiResponse now { data := some records } reqLoc).jobs.length
      = records.countP (survives reqLoc) ∧
    (truthyStr r.job_title = false → survives reqLoc r = false) := by
  obtain ⟨⟨k, r', hmem, hjr⟩, htk⟩ := mem_transform_jobs now records reqLoc j hj
  refine ⟨⟨?_, ?_⟩, transform_jobs_length now records reqLoc, ?_⟩
  · subst hjr
    have hne : strOr r'.job_title "Position Title Not Available"
        ≠ "Position Title Not Available" := by
      simpa [titleKept, transformJob] using htk
    show strOr r'.job_title "Position Title Not Available" ≠ ""
    exact strOr_ne_fallback_ne_empty _ _ hne
  · subst hjr
    show strOr r'.employer_name "Company Name Not Available" ≠ ""
    exact strOr_ne_empty _ _ (by decide)
  · intro hf
    simp [survives, titleKept, transformJob, strOr_of_not_truthy _ _ hf]

/-- C9 witness: a singleton record list whose record has a title and a
company; its transform is a member of the output. -/
theorem normalizer_title_company_witness :
    (transformJob 0 0 recC9) ∈ (transformRapidApiResponse 0 { data := some [recC9] } none).jobs ∧
    (((transformJob 0 0 recC9).title ≠ "" ∧ (transformJob 0 0 recC9).company ≠ "") ∧
     (transformRapidApiResponse 0 { data := some [recC9] } none).jobs.length
       = [recC9].countP (survives none) ∧
     (truthyStr titlelessR.job_title = false → survives none titlelessR = false)) :=
  ⟨by decide,
   normalizer_title_company 0 [recC9] none (transformJob 0 0 recC9) titlelessR (by decide)⟩

/-- C3 counterexample: the response returned on budget refusal is exactly
equal to the response of an ordinary search that found no jobs — the result
record carries no budget-exhausted flag of any kind (the `JobSearchResponse`
type has none), and no upstream call is made. -/
theorem budget_refusal_no_flag_cex :
    (searchJobs 0 "2025-01" true (fun _ => .success []) paramsC3 []
        (some ⟨200, "2025-01"⟩)).response
      = (searchJobs 0 "2025-01" true (fun _ => .success []) paramsC3 [] none).response ∧
    (searchJobs 0 "2025-01" true (fun _ => .success []) paramsC3 []
        (some ⟨200, "2025-01"⟩)).upstreamCalls = [] := by
  decide

/-- C3 (amended): when the monthly budget is exhausted (stored count at or
above the ceiling in the current month) and the cache misses, the search
returns the plain empty response — jobs [], total 0, hasMore false, with no
distinguishing budget flag — makes no upstream call, leaves the store and
the tracker unchanged, and emits nothing. -/
theorem budget_refusal_empty_result (now : Nat) (month : String) (hasKey : Bool)
    (upstream : Nat → PageResult) (params : JobSearchParams) (store : CacheStore)
    (c : Nat)
    (hmiss : lookupStore store (generateCacheKey params) = none)
    (hc : MAX_REQUESTS_PER_MONTH ≤ c) :
    searchJobs now month hasKey upstream params store (some ⟨c, month⟩)
      = { response := emptyResponse, emissions := [], store := store,
          tracker := some ⟨c, month⟩, upstreamCalls := [] } ∧
    emptyResponse = { jobs := [], total := 0, page := 1, hasMore := false } := by
  refine ⟨?_, rfl⟩
  simp [searchJobs, getCachedJobs_miss now store params hmiss,
    trackRequest_same_month_ge month c (by simpa [MAX_REQUESTS_PER_MONTH] using hc)]

/-- C3 witness: the refusal theorem at a concrete exhausted tracker. -/
theorem budget_refusal_empty_result_witness :
    lookupStore [] (generateCacheKey paramsC3) = none ∧
    (searchJobs 5 "2025-01" true (fun _ => .success []) paramsC3 []
        (some ⟨200, "2025-01"⟩)
      = { response := emptyResponse, emissions := [], store := [],
          tracker := some ⟨200, "2025-01"⟩, upstreamCalls := [] } ∧
     emptyResponse = { jobs := [], total := 0, page := 1, hasMore := false }) :=
  ⟨rfl, budget_refusal_empty_result 5 "2025-01" true (fun _ => .success []) paramsC3 [] 200
    rfl (by decide)⟩

/-- C4 counterexample: a request whose query is empty after trimming is not
rejected — on a cache miss `searchJobs` consumes one budget unit (tracker
advances to count 1) and issues the upstream page-1 request. -/
theorem empty_query_not_rejected_cex :
    sTrim paramsC4.query = "" ∧
    (searchJobs 0 "2025-01" true (fun _ => .success [recC9]) paramsC4 [] none).tracker
      = some ⟨1, "2025-01"⟩ ∧
    (searchJobs 0 "2025-01" true (fun _ => .success [recC9]) paramsC4 [] none).upstreamCalls
      = [1] := by
  decide

/-- C4 (amended): `searchJobs` performs no query validation: a request whose
query is empty after trimming proceeds exactly like any other request — on a
cache miss with budget available it charges the budget (the tracker advances
to the post-call state) and requests upstream page 1. The empty-query guard
exists only in the UI caller, before `searchJobs` is invoked. -/
theorem empty_query_proceeds (now : Nat) (month : String) (upstream : Nat → PageResult)
    (params : JobSearchParams) (store : CacheStore) (tracker : Option RequestTracker)
    (hq : sTrim params.query = "")
    (hmiss : lookupStore store (generateCacheKey params) = none)
    (hallow : (trackRequest month tracker).1.canMakeRequest = true) :
    (searchJobs now month true upstream params store tracker).tracker
      = (trackRequest month tracker).2 ∧
    (searchJobs now month true upstream params store tracker).upstreamCalls.head?
      = some 1 := by
  cases hup : upstream 1 with
  | success fp =>
    constructor <;>
      simp [searchJobs, getCachedJobs_miss now store params hmiss, hallow, hup]
  | timeoutFailure =>
    constructor <;>
      simp [searchJobs, getCachedJobs_miss now store params hmiss, hallow, hup]
  | otherFailure =>
    constructor <;>
      simp [searchJobs, getCachedJobs_miss now store params hmiss, hallow, hup]

/-- C4 witness: the theorem at the concrete whitespace query request. -/
theorem empty_query_proceeds_witness :
    sTrim paramsC4.query = "" ∧
    lookupStore [] (generateCacheKey paramsC4) = none ∧
    (trackRequest "2025-01" none).1.canMakeRequest = true ∧
    ((searchJobs 0 "2025-01" true (fun _ => .success []) paramsC4 [] none).tracker
        = (trackRequest "2025-01" none).2 ∧
     (searchJobs 0 "2025-01" true (fun _ => .success []) paramsC4 [] none).upstreamCalls.head?
        = some 1) :=
  ⟨by decide, rfl, by decide,
   empty_query_proceeds 0 "2025-01" (fun _ => .success []) paramsC4 [] none
     (by decide) rfl (by decide)⟩

/-- C1 counterexample: with a full first page (10 jobs) and a short second
page (5 jobs), the completed search's background loop ends with an
accumulated, filtered set of 15 jobs (its final emission), but the cache
entry written under the request's derived key holds only the 10 first-page
jobs — the full final accumulated set is not what is cached. -/
theorem cache_write_first_batch_only_cex :
    (searchJobs 0 "2025-01" true upstreamC1 paramsC1 [] none).emissions.map List.length
      = [15] ∧
    ((lookupStore (searchJobs 0 "2025-01" true upstreamC1 paramsC1 [] none).store
        (generateCacheKey paramsC1)).map (fun e => e.data.length)) = some 10 ∧
    (searchJobs 0 "2025-01" true upstreamC1 paramsC1 [] none).emissions.getLast?.map
        List.length
      ≠ ((lookupStore (searchJobs 0 "2025-01" true upstreamC1 paramsC1 [] none).store
          (generateCacheKey paramsC1)).map (fun e => e.data.length)) := by
  decide

/-- C1 (amended): a search that misses the cache, passes the budget check,
and fetches its first page successfully caches exactly its synchronous
response set — the transformed, filtered FIRST page — under the request's
derived key when that set is non-empty; the jobs accumulated by the
background loop are never written to the cache, and when the first-page
filtered set is empty nothing is written at all. -/
theorem cache_write_first_batch (now : Nat) (month : String) (upstream : Nat → PageResult)
    (params : JobSearchParams) (store : CacheStore) (tracker : Option RequestTracker)
    (firstPage : List RawJobData)
    (hmiss : lookupStore store (generateCacheKey params) = none)
    (hallow : (trackRequest month tracker).1.canMakeRequest = true)
    (hfirst : upstream 1 = .success firstPage)
    (hsize : store.length < MAX_CACHE_SIZE) :
    (searchJobs now month true upstream params store tracker).response.jobs
      = (transformRapidApiResponse now { data := some firstPage } params.location).jobs ∧
    (0 < (searchJobs now month true upstream params store tracker).response.jobs.length →
      lookupStore (searchJobs now month true upstream params store tracker).store
          (generateCacheKey params)
        = some { data := (searchJobs now month true upstream params store tracker).response.jobs,
                 timestamp := now, searchParams := params,
                 totalResults :=
                   (searchJobs now month true upstream params store tracker).response.total }) ∧
    ((searchJobs now month true upstream params store tracker).response.jobs.length = 0 →
      (searchJobs now month true upstream params store tracker).store = store) := by
  have hcache : ∀ (e : CacheEntry),
      lookupStore (cleanupCache (setStore store (generateCacheKey params) e))
        (generateCacheKey params) = some e := by
    intro e
    have hrem := removeStore_length_le store (generateCacheKey params)
    have hlen : (setStore store (generateCacheKey params) e).length ≤ MAX_CACHE_SIZE := by
      simp only [setStore, List.length_cons]
      omega
    rw [cleanupCache_small _ hlen, lookupStore_setStore]
  by_cases hz :
      (transformRapidApiResponse now { data := some firstPage } params.location).jobs.length = 0
  · refine ⟨?_, ?_, ?_⟩
    · simp [searchJobs, getCachedJobs_miss now store params hmiss, hallow, hfirst]
    · intro hpos
      have hjobs : (searchJobs now month true upstream params store tracker).response.jobs
          = (transformRapidApiResponse now { data := some firstPage } params.location).jobs := by
        simp [searchJobs, getCachedJobs_miss now store params hmiss, hallow, hfirst]
      rw [hjobs, hz] at hpos
      omega
    · intro _
      simp [searchJobs, getCachedJobs_miss now store params hmiss, hallow, hfirst, hz]
  · have hpos :
        0 < (transformRapidApiResponse now { data := some firstPage } params.location).jobs.length :=
      Nat.pos_of_ne_zero hz
    refine ⟨?_, ?_, ?_⟩
    · simp [searchJobs, getCachedJobs_miss now store params hmiss, hallow, hfirst]
    · intro _
      simp [searchJobs, getCachedJobs_miss now store params hmiss, hallow, hfirst, hpos,
        cacheJobs, hcache]
    · intro hzero
      have hjobs : (searchJobs now month true upstream params store tracker).response.jobs
          = (transformRapidApiResponse now { data := some firstPage } params.location).jobs := by
        simp [searchJobs, getCachedJobs_miss now store params hmiss, hallow, hfirst]
      rw [hjobs] at hzero
      omega

/-- C1 witness: the amended theorem at the concrete two-page scenario. -/
theorem cache_write_first_batch_witness :
    lookupStore [] (generateCacheKey paramsC1) = none ∧
    (trackRequest "2025-01" none).1.canMakeRequest = true ∧
    upstreamC1 1 = .success page1C1 ∧
    ([] : CacheStore).length < MAX_CACHE_SIZE ∧
    ((searchJobs 0 "2025-01" true upstreamC1 paramsC1 [] none).response.jobs
       = (transformRapidApiResponse 0 { data := some page1C1 } paramsC1.location).jobs ∧
     (0 < (searchJobs 0 "2025-01" true upstreamC1 paramsC1 [] none).response.jobs.length →
       lookupStore (searchJobs 0 "2025-01" true upstreamC1 paramsC1 [] none).store
           (generateCacheKey paramsC1)
         = some { data := (searchJobs 0 "2025-01" true upstreamC1 paramsC1 [] none).response.jobs,
                  timestamp := 0, searchParams := paramsC1,
                  totalResults :=
                    (searchJobs 0 "2025-01" true upstreamC1 paramsC1 [] none).response.total }) ∧
     ((searchJobs 0 "2025-01" true upstreamC1 paramsC1 [] none).response.jobs.length = 0 →
       (searchJobs 0 "2025-01" true upstreamC1 paramsC1 [] none).store = [])) :=
  ⟨rfl, by decide, by decide, by decide,
   cache_write_first_batch 0 "2025-01" upstreamC1 paramsC1 [] none page1C1
     rfl (by decide) (by decide) (by decide)⟩
